import Mathlib

/-!
Shallow embedding of the job-lifecycle and resilience core of the
Video-To-Text-AI repository (FastAPI + Celery + Redis + OpenRouter client),
together with theorems settling the frozen claims about it.

Embedded source files:
  * app/models/responses.py   (JobStatus enum)
  * app/workers/tasks.py      (analyze_video task, _update_job_status,
                               _store_result, _store_error)
  * app/api/v1/routes/videos.py (submit, get_analysis_result, cancel_analysis)
  * app/core/circuit_breaker.py (CircuitBreaker)
  * app/core/exceptions.py    (exception hierarchy, drives retry/breaker
                               isinstance checks)
  * app/services/openrouter_client.py (_make_request with tenacity retry,
                               analyze_video with breaker)
  * app/services/video_processor.py (extract_metadata)
-/

namespace VideoToText

/-! ## Job status (app/models/responses.py, class JobStatus) -/

/-- Embedding of the JobStatus str-Enum. -/
inductive JobStatus where
  | pending
  | processing
  | completed
  | failed
  | cancelled
  deriving DecidableEq, Repr

/-- String value of each enum member, exactly as written in the source:
PENDING = "pending", PROCESSING = "processing", COMPLETED = "completed",
FAILED = "failed", CANCELLED = "cancelled". -/
def JobStatus.value : JobStatus → String
  | .pending => "pending"
  | .processing => "processing"
  | .completed => "completed"
  | .failed => "failed"
  | .cancelled => "cancelled"

/-- Embedding of the Enum constructor JobStatus(s): succeeds exactly on the
five literal values, as Python Enum lookup by value does. -/
def JobStatus.ofValue : String → Option JobStatus
  | "pending" => some .pending
  | "processing" => some .processing
  | "completed" => some .completed
  | "failed" => some .failed
  | "cancelled" => some .cancelled
  | _ => none

/-! ## Job record in Redis (hash at key job:{job_id})

The record is the Redis hash. hset writes individual fields; fields not
written by an operation keep their previous value. expire refreshes the TTL
to settings.JOB_RESULT_TTL (86400). -/

/-- Value of settings.JOB_RESULT_TTL in app/config.py. -/
def JOB_RESULT_TTL : Nat := 86400

/-- Embedding of the Redis hash stored at key job:{job_id}. Each field is
optional because hgetall may or may not contain it. -/
structure JobRecord where
  status : Option String
  created_at : Option String
  result : Option String
  error : Option String
  error_code : Option String
  ttl : Nat
  deriving DecidableEq, Repr

/-- Embedding of _update_job_status (app/workers/tasks.py lines 232-248):
hset job:{job_id} status = status.value, then expire to JOB_RESULT_TTL.
No guard reads or checks the previous status. -/
def update_job_status (status : JobStatus) (r : JobRecord) : JobRecord :=
  { r with status := some status.value, ttl := JOB_RESULT_TTL }

/-- Embedding of _store_result (app/workers/tasks.py lines 251-273):
hset result = json, hset status = COMPLETED.value, expire. The error and
error_code fields are not touched. -/
def store_result (result : String) (r : JobRecord) : JobRecord :=
  { r with result := some result,
           status := some JobStatus.completed.value,
           ttl := JOB_RESULT_TTL }

/-- Embedding of _store_error (app/workers/tasks.py lines 276-297):
hset mapping {status = FAILED.value, error = message, error_code = code},
expire. The result field is not touched. -/
def store_error (error_message error_code : String) (r : JobRecord) : JobRecord :=
  { r with status := some JobStatus.failed.value,
           error := some error_message,
           error_code := some error_code,
           ttl := JOB_RESULT_TTL }

/-- One lifecycle store operation on the job record, as invoked by the
worker task body. -/
inductive JobOp where
  | updateStatus (s : JobStatus)
  | storeResult (result : String)
  | storeError (msg code : String)
  deriving DecidableEq, Repr

/-- Application of one store operation to the record. -/
def applyOp : JobOp → JobRecord → JobRecord
  | .updateStatus s, r => update_job_status s r
  | .storeResult res, r => store_result res r
  | .storeError m c, r => store_error m c r

/-- Status value each operation writes, read off the three function bodies:
updateStatus writes its argument, storeResult writes COMPLETED, storeError
writes FAILED. -/
def opTarget : JobOp → JobStatus
  | .updateStatus s => s
  | .storeResult _ => .completed
  | .storeError _ _ => .failed

/-- Terminal-state predicate from the spec vocabulary: COMPLETED, FAILED or
CANCELLED (compared through the stored string values). -/
def isTerminal (r : JobRecord) : Bool :=
  r.status = some JobStatus.completed.value ||
  r.status = some JobStatus.failed.value ||
  r.status = some JobStatus.cancelled.value

/-! ## Executor task (app/workers/tasks.py, analyze_video lines 44-96)

The Celery task body: unconditionally _update_job_status(PROCESSING), then
runs the async analysis; on success _store_result, on VideoAPIException
_store_error(msg, e.error_code), on any other exception
_store_error(msg, "INTERNAL_ERROR"). The outcome of the async body is
abstracted as a value of AnalysisOutcome. -/

/-- Outcome of _analyze_video_async as observed by the task body. -/
inductive AnalysisOutcome where
  | ok (result : String)
  | apiError (msg code : String)
  | unexpected (msg : String)
  deriving DecidableEq, Repr

/-- Embedding of the analyze_video task body: the sequence of record
mutations it performs, driven by the analysis outcome. There is no check of
the current status anywhere in the body. -/
def analyze_video (outcome : AnalysisOutcome) (r : JobRecord) : JobRecord :=
  let r1 := update_job_status JobStatus.processing r
  match outcome with
  | .ok res => store_result res r1
  | .apiError m c => store_error m c r1
  | .unexpected m => store_error m "INTERNAL_ERROR" r1

/-- Record created by submit_video_analysis
(app/api/v1/routes/videos.py lines 76-83): hset mapping
{status = PENDING.value, created_at = iso}, expire. -/
def submitRecord (created_at : String) : JobRecord :=
  { status := some JobStatus.pending.value,
    created_at := some created_at,
    result := none,
    error := none,
    error_code := none,
    ttl := JOB_RESULT_TTL }

/-- Records reachable from submission by any number of executor invocations
(the dispatcher may redeliver, so several invocations on one record are
reachable). -/
inductive Reachable : JobRecord → Prop where
  | submitted (created_at : String) : Reachable (submitRecord created_at)
  | step (o : AnalysisOutcome) {r : JobRecord} :
      Reachable r → Reachable (analyze_video o r)

/-! ## Cancellation (app/api/v1/routes/videos.py, cancel_analysis 195-225)

The DELETE handler revokes the Celery task and deletes the Redis key,
unconditionally, then returns HTTP 204. It never reads the record. -/

/-- Observable effect of the cancel_analysis handler. The store is the
Option-valued record at job:{job_id} (none = absent). -/
structure CancelEffect where
  revoked : Bool
  store : Option JobRecord
  httpStatus : Nat
  deriving DecidableEq, Repr

/-- Embedding of cancel_analysis: revoke, delete the key, return 204,
regardless of the current record. -/
def cancel_analysis (_store : Option JobRecord) : CancelEffect :=
  { revoked := true, store := none, httpStatus := 204 }

/-! ## Facade status read (app/api/v1/routes/videos.py, get_analysis_result)

The handler reads the hash, takes status with default PENDING.value, parses
it with JobStatus(status_str), and serializes the enum back to its value in
the response. -/

/-- Status string the facade returns for a stored record, following lines
140-141 and the response serialization; none models the ValueError raised
by JobStatus() on an unknown stored string (surfaced as HTTP 500). -/
def facadeStatusString (stored : Option String) : Option String :=
  (JobStatus.ofValue (stored.getD JobStatus.pending.value)).map JobStatus.value

/-! ## Circuit breaker (app/core/circuit_breaker.py)

Time is modelled as a Nat number of seconds passed explicitly into each
call (the source calls time.time()). -/

/-- Embedding of the CircuitState str-Enum. -/
inductive CircuitState where
  | closed
  | opened
  | half_open
  deriving DecidableEq, Repr

/-- Embedding of the CircuitBreaker object: configuration plus mutable
state (failure_count, last_failure_time, state, half_open_calls). -/
structure CircuitBreaker where
  failure_threshold : Nat
  recovery_timeout : Nat
  half_open_max_calls : Nat
  failure_count : Nat
  last_failure_time : Option Nat
  state : CircuitState
  half_open_calls : Nat
  deriving DecidableEq, Repr

/-- Constructor defaults from CircuitBreaker.__init__: failure_count 0,
last_failure_time None, state CLOSED, half_open_calls 0. -/
def CircuitBreaker.mk0 (failure_threshold recovery_timeout half_open_max_calls : Nat) :
    CircuitBreaker :=
  { failure_threshold := failure_threshold,
    recovery_timeout := recovery_timeout,
    half_open_max_calls := half_open_max_calls,
    failure_count := 0,
    last_failure_time := none,
    state := .closed,
    half_open_calls := 0 }

/-- Embedding of _should_attempt_reset (lines 64-72): only in OPEN with a
recorded last failure, and only when recovery_timeout seconds have elapsed
since it. The conjunct t ≤ now pins the real-valued comparison of the
source down to Nat: time.time() - last_failure_time is negative when
now < t, and a negative value is never ≥ the positive recovery_timeout. -/
def should_attempt_reset (cb : CircuitBreaker) (now : Nat) : Bool :=
  match cb.state, cb.last_failure_time with
  | .opened, some t => decide (t ≤ now ∧ cb.recovery_timeout ≤ now - t)
  | _, _ => false

/-- Embedding of _on_success (lines 74-83): HALF_OPEN closes and resets the
counters; CLOSED resets failure_count; OPEN is untouched. -/
def on_success (cb : CircuitBreaker) : CircuitBreaker :=
  if cb.state = .half_open then
    { cb with state := .closed, failure_count := 0, half_open_calls := 0 }
  else if cb.state = .closed then
    { cb with failure_count := 0 }
  else cb

/-- Embedding of _on_failure (lines 85-96): increment failure_count, stamp
last_failure_time; then HALF_OPEN reopens, and otherwise the breaker opens
when failure_count has reached failure_threshold. -/
def on_failure (cb : CircuitBreaker) (now : Nat) : CircuitBreaker :=
  let cb1 := { cb with failure_count := cb.failure_count + 1,
                       last_failure_time := some now }
  if cb1.state = .half_open then
    { cb1 with state := .opened, half_open_calls := 0 }
  else if cb1.failure_threshold ≤ cb1.failure_count then
    { cb1 with state := .opened }
  else cb1

/-- Reason a call is rejected without invoking the protected operation,
with the payload the raised CircuitBreakerError message carries: the OPEN
rejection message interpolates self.recovery_timeout (line 112,
"Retry after {self.recovery_timeout}s"). -/
inductive RejectKind where
  | circuitOpen (retryAfterSeconds : Nat)
  | halfOpenMaxCalls
  deriving DecidableEq, Repr

/-- Admission phase of async_wrapper (lines 102-121): lazy reset check,
OPEN rejection, HALF_OPEN call-count limiting. Returns the breaker state
after admission bookkeeping and the rejection, if any. -/
def admission (cb : CircuitBreaker) (now : Nat) : CircuitBreaker × Option RejectKind :=
  let cb1 := if should_attempt_reset cb now then
               { cb with state := .half_open, half_open_calls := 0 }
             else cb
  if cb1.state = .opened then
    (cb1, some (.circuitOpen cb1.recovery_timeout))
  else if cb1.state = .half_open then
    if cb1.half_open_max_calls ≤ cb1.half_open_calls then
      (cb1, some .halfOpenMaxCalls)
    else
      ({ cb1 with half_open_calls := cb1.half_open_calls + 1 }, none)
  else (cb1, none)

/-- Outcome of one invocation of the protected operation, as the wrapper
observes it: success, or an exception that either is or is not an instance
of expected_exception. -/
inductive CallOutcome where
  | success
  | failure (qualifying : Bool)
  deriving DecidableEq, Repr

/-- What one execute call returns to its caller. -/
inductive ExecResult where
  | rejected (k : RejectKind)
  | returned
  | raised (qualifying : Bool)
  deriving DecidableEq, Repr

/-- Full observable trace of one execute call: the breaker afterwards, the
result, whether the protected operation was invoked, and how many times
_on_success and _on_failure ran during the call. -/
structure ExecTrace where
  breaker : CircuitBreaker
  result : ExecResult
  invoked : Bool
  successesRecorded : Nat
  failuresRecorded : Nat
  deriving DecidableEq, Repr

/-- Embedding of async_wrapper (lines 102-130): admission, then the
protected call; success runs _on_success, a qualifying exception runs
_on_failure and re-raises, a non-qualifying exception propagates without
touching the counters. -/
def execute (cb : CircuitBreaker) (now : Nat) (op : CallOutcome) : ExecTrace :=
  match admission cb now with
  | (cb1, some k) =>
      { breaker := cb1, result := .rejected k, invoked := false,
        successesRecorded := 0, failuresRecorded := 0 }
  | (cb1, none) =>
      match op with
      | .success =>
          { breaker := on_success cb1, result := .returned, invoked := true,
            successesRecorded := 1, failuresRecorded := 0 }
      | .failure true =>
          { breaker := on_failure cb1 now, result := .raised true, invoked := true,
            successesRecorded := 0, failuresRecorded := 1 }
      | .failure false =>
          { breaker := cb1, result := .raised false, invoked := true,
            successesRecorded := 0, failuresRecorded := 0 }

/-- Embedding of the time_until_retry field of get_state (lines 166-176):
max(0, recovery_timeout - (now - last_failure_time)), 0 when no failure is
recorded. Nat subtraction truncates at 0 exactly as the max does. -/
def time_until_retry (cb : CircuitBreaker) (now : Nat) : Nat :=
  match cb.last_failure_time with
  | some t => cb.recovery_timeout - (now - t)
  | none => 0

/-- Folding a sequence of qualifying-failure calls through execute, one
timestamp per call. -/
def runFailures (cb : CircuitBreaker) (times : List Nat) : CircuitBreaker :=
  times.foldl (fun c t => (execute c t (.failure true)).breaker) cb

/-! ## OpenRouter client request layer
(app/services/openrouter_client.py, app/core/exceptions.py)

One HTTP attempt inside _make_request observes one low-level event; the
body translates it into the exception hierarchy of app/core/exceptions.py.
The tenacity decorator on _make_request is
  retry(stop=stop_after_attempt(3),
        retry=retry_if_exception_type((OpenRouterAPIError,
                                       httpx.TimeoutException)),
        reraise=True). -/

/-- Low-level event of one HTTP POST attempt: a response with a status
code, an httpx.TimeoutException, or another httpx.RequestError. -/
inductive HttpEvent where
  | response (statusCode : Nat)
  | timeout
  | requestError
  deriving DecidableEq, Repr

/-- Exceptions that can leave the body of _make_request, per the class
hierarchy of app/core/exceptions.py (all three subclass VideoAPIException;
none subclasses another of the three, and none subclasses
httpx.TimeoutException). -/
inductive ReqError where
  | openRouterAPIError
  | rateLimitError (retryAfter : Nat)
  | processingTimeoutError
  deriving DecidableEq, Repr

/-- Translation performed by one execution of the _make_request body
(lines 179-234): 429 raises RateLimitError, other status ≥ 400 raises
OpenRouterAPIError, httpx.TimeoutException is caught and re-raised as
ProcessingTimeoutError, httpx.RequestError as OpenRouterAPIError; a
status < 400 returns the JSON result. -/
def attemptOnce (retryAfterHeader : Nat) : HttpEvent → Except ReqError Unit
  | .response code =>
      if code = 429 then .error (.rateLimitError retryAfterHeader)
      else if 400 ≤ code then .error .openRouterAPIError
      else .ok ()
  | .timeout => .error .processingTimeoutError
  | .requestError => .error .openRouterAPIError

/-- Tenacity retry predicate retry_if_exception_type((OpenRouterAPIError,
httpx.TimeoutException)) applied to the exceptions that actually leave the
body: only OpenRouterAPIError is an instance of either type —
RateLimitError and ProcessingTimeoutError subclass VideoAPIException, not
OpenRouterAPIError, and ProcessingTimeoutError is not an
httpx.TimeoutException (the raw timeout never escapes the body). -/
def isRetryable : ReqError → Bool
  | .openRouterAPIError => true
  | _ => false

/-- Embedding of the tenacity loop around _make_request: up to
attemptsLeft tries over the stream of per-attempt events; a retryable
exception with attempts remaining retries, otherwise the exception is
re-raised to the caller (reraise=True). Returns the outcome and the number
of attempts consumed. -/
def make_request (retryAfterHeader : Nat) :
    Nat → List HttpEvent → Except ReqError Unit × Nat
  | _, [] => (.error .openRouterAPIError, 0)
  | 0, _ => (.error .openRouterAPIError, 0)
  | attemptsLeft + 1, e :: rest =>
      match attemptOnce retryAfterHeader e with
      | .ok () => (.ok (), 1)
      | .error err =>
          if isRetryable err && attemptsLeft ≠ 0 then
            let (res, n) := make_request retryAfterHeader attemptsLeft rest
            (res, n + 1)
          else
            (.error err, 1)

/-- Value of stop_after_attempt in the decorator on _make_request. -/
def MAX_ATTEMPTS : Nat := 3

/-- Circuit-breaker qualifying predicate: the breaker in OpenRouterClient
is constructed with expected_exception=OpenRouterAPIError, so only
OpenRouterAPIError instances run _on_failure. -/
def qualifies : ReqError → Bool
  | .openRouterAPIError => true
  | _ => false

/-- Outcome one run of _protected_call presents to the breaker wrapper,
with the number of HTTP attempts it consumed: the whole retried
_make_request is one protected operation. -/
def protectedOutcome (retryAfterHeader : Nat) (events : List HttpEvent) :
    CallOutcome × Nat :=
  match make_request retryAfterHeader MAX_ATTEMPTS events with
  | (.ok (), n) => (.success, n)
  | (.error e, n) => (.failure (qualifies e), n)

/-- Embedding of OpenRouterClient.analyze_video (lines 236-298): the
breaker-decorated _protected_call runs the retried _make_request as one
protected operation. events is the stream of per-attempt HTTP events of
this call; when the breaker rejects the call, no attempt happens. -/
def client_analyze_video (cb : CircuitBreaker) (now : Nat)
    (retryAfterHeader : Nat) (events : List HttpEvent) : ExecTrace × Nat :=
  let (op, n) := protectedOutcome retryAfterHeader events
  let t := execute cb now op
  (t, if t.invoked then n else 0)

/-! ## Video metadata extraction
(app/services/video_processor.py, extract_metadata lines 99-162) -/

/-- Metadata dictionary returned by extract_metadata. file_size_mb is the
Python float content_length / (1024 * 1024), embedded exactly as a
rational. -/
structure Metadata where
  duration_seconds : Nat
  resolution : String
  fps : Nat
  codec : String
  frame_count : Nat
  file_size_mb : ℚ
  content_type : String
  deriving DecidableEq, Repr

/-- Default dictionary returned by the except-branch of extract_metadata
(lines 151-162). -/
def defaultMetadata : Metadata :=
  { duration_seconds := 0, resolution := "unknown", fps := 0,
    codec := "unknown", frame_count := 0, file_size_mb := 0,
    content_type := "" }

/-- Outcome of the HEAD request inside extract_metadata: a response with
status code and raw headers, or a raised network error. The content-length
header is kept as a raw string so that a malformed value (int() raising)
is representable. -/
inductive HeadOutcome where
  | response (statusCode : Nat) (contentLength : Option String)
      (contentType : String)
  | netError
  deriving DecidableEq, Repr

/-- Embedding of extract_metadata: the whole body sits in one
try/except Exception, whose handler returns defaultMetadata; inside,
raise_for_status raises on status ≥ 400 and int(content_length) raises on
a malformed header, both landing in the handler. -/
def extract_metadata (h : HeadOutcome) : Metadata :=
  match h with
  | .netError => defaultMetadata
  | .response code contentLength contentType =>
      if 400 ≤ code then defaultMetadata
      else
        match contentLength with
        | none =>
            { duration_seconds := 0, resolution := "unknown", fps := 0,
              codec := "unknown", frame_count := 0, file_size_mb := 0,
              content_type := contentType }
        | some s =>
            match s.toNat? with
            | none => defaultMetadata
            | some n =>
                { duration_seconds := 0, resolution := "unknown", fps := 0,
                  codec := "unknown", frame_count := 0,
                  file_size_mb := (n : ℚ) / (1024 * 1024),
                  content_type := contentType }

/-- Failure predicate for the HEAD phase: network error, HTTP error status,
or malformed content-length header — exactly the cases whose control flow
reaches the except-handler. -/
def headFailed : HeadOutcome → Bool
  | .netError => true
  | .response code contentLength _ =>
      decide (400 ≤ code) ||
      (match contentLength with
       | some s => s.toNat?.isNone
       | none => false)

/-! ## Concrete records used by the counterexamples -/

/-- Record of a job that completed: status COMPLETED with a stored result,
as left behind by a successful executor run. -/
def completedRec : JobRecord :=
  analyze_video (.ok "analysis-result") (submitRecord "2025-01-01T00:00:00")

/-- Record after a first executor invocation that failed. -/
def failedOnceRec : JobRecord :=
  analyze_video (.apiError "upstream boom" "OPENROUTER_API_ERROR")
    (submitRecord "2025-01-01T00:00:00")

/-- Record after a dispatcher redelivery reprocesses the failed job and
succeeds: the second invocation runs on the already-FAILED record. -/
def redeliveredRec : JobRecord :=
  analyze_video (.ok "analysis-result") failedOnceRec

/-- Breaker of the OpenRouter client (threshold 5, recovery 60, one
half-open probe) after five qualifying failures all recorded at time 0. -/
def openedBreaker : CircuitBreaker :=
  runFailures (CircuitBreaker.mk0 5 60 1) [0, 0, 0, 0, 0]

/-! ## Helper lemmas about the circuit breaker -/

lemma should_attempt_reset_of_ne_opened (cb : CircuitBreaker) (now : Nat)
    (h : cb.state ≠ .opened) : should_attempt_reset cb now = false := by
  cases hlf : cb.last_failure_time <;>
    cases hst : cb.state <;>
      simp_all [should_attempt_reset]

lemma admission_closed (cb : CircuitBreaker) (now : Nat) (h : cb.state = .closed) :
    admission cb now = (cb, none) := by
  have hr : should_attempt_reset cb now = false :=
    should_attempt_reset_of_ne_opened cb now (by simp [h])
  simp [admission, hr, h]

lemma execute_closed_failure (cb : CircuitBreaker) (t : Nat)
    (h : cb.state = .closed) :
    execute cb t (.failure true) =
      { breaker := on_failure cb t, result := .raised true, invoked := true,
        successesRecorded := 0, failuresRecorded := 1 } := by
  simp [execute, admission_closed cb t h]

lemma execute_closed_success (cb : CircuitBreaker) (t : Nat)
    (h : cb.state = .closed) :
    execute cb t .success =
      { breaker := on_success cb, result := .returned, invoked := true,
        successesRecorded := 1, failuresRecorded := 0 } := by
  simp [execute, admission_closed cb t h]

lemma on_failure_count (cb : CircuitBreaker) (t : Nat) :
    (on_failure cb t).failure_count = cb.failure_count + 1 := by
  unfold on_failure
  dsimp only
  split
  · rfl
  · split <;> rfl

lemma on_failure_closed_below (cb : CircuitBreaker) (t : Nat)
    (hst : cb.state = .closed) (hlt : cb.failure_count + 1 < cb.failure_threshold) :
    on_failure cb t =
      { cb with failure_count := cb.failure_count + 1,
                last_failure_time := some t } := by
  have h2 : ¬ cb.failure_threshold ≤ cb.failure_count + 1 := by omega
  simp [on_failure, hst, h2]

lemma on_failure_closed_hits (cb : CircuitBreaker) (t : Nat)
    (hst : cb.state = .closed) (hge : cb.failure_threshold ≤ cb.failure_count + 1) :
    on_failure cb t =
      { cb with failure_count := cb.failure_count + 1,
                last_failure_time := some t, state := .opened } := by
  simp [on_failure, hst, hge]

lemma runFailures_opens : ∀ (times : List Nat) (cb : CircuitBreaker),
    cb.state = .closed →
    cb.failure_count + times.length = cb.failure_threshold →
    times.length ≠ 0 →
    (runFailures cb times).state = .opened ∧
    (runFailures cb times).failure_count = cb.failure_threshold := by
  intro times
  induction times with
  | nil => intro cb _ _ hne; simp at hne
  | cons t rest ih =>
    intro cb hst hcnt _
    have hstep : runFailures cb (t :: rest) =
        runFailures (on_failure cb t) rest := by
      simp [runFailures, execute_closed_failure cb t hst]
    cases rest with
    | nil =>
      have hge : cb.failure_threshold ≤ cb.failure_count + 1 := by
        simp at hcnt; omega
      rw [hstep, on_failure_closed_hits cb t hst hge]
      simp [runFailures]
      simp at hcnt; omega
    | cons t2 rest2 =>
      have hlt : cb.failure_count + 1 < cb.failure_threshold := by
        simp at hcnt; omega
      rw [hstep, on_failure_closed_below cb t hst hlt]
      exact ih _ hst (by simp at hcnt ⊢; omega) (by simp)

lemma execute_open_window (cb : CircuitBreaker) (now t : Nat) (o : CallOutcome)
    (hst : cb.state = .opened) (hlf : cb.last_failure_time = some t)
    (hwin : now < t + cb.recovery_timeout) :
    execute cb now o =
      { breaker := cb, result := .rejected (.circuitOpen cb.recovery_timeout),
        invoked := false, successesRecorded := 0, failuresRecorded := 0 } := by
  have hr : should_attempt_reset cb now = false := by
    simp only [should_attempt_reset, hst, hlf]
    simp only [decide_eq_false_iff_not]
    omega
  simp [execute, admission, hr, hst]

/-! ## Claim C1 — terminal-state immutability of the status field -/

/-- C1, counterexample. The claim says that once a job record is in a
terminal state no lifecycle operation changes its status. On the code this
is false: completedRec is terminal (status COMPLETED), yet a subsequent
_update_job_status(PROCESSING) call — exactly what a redelivered executor
performs — changes its status to "processing". -/
theorem C1_terminal_overwritten_counterexample :
    isTerminal completedRec = true ∧
    (applyOp (.updateStatus .processing) completedRec).status = some "processing" ∧
    (applyOp (.updateStatus .processing) completedRec).status ≠ completedRec.status := by
  refine ⟨by decide, by decide, by decide⟩

/-- C1, amended. The lifecycle store operations are unguarded: each of
_update_job_status, _store_result and _store_error unconditionally
overwrites the status field with its own target value (the argument,
COMPLETED, FAILED respectively), regardless of the current status — so
transitions out of a terminal state are not rejected and the status is not
monotonic. -/
theorem C1_status_unconditional_overwrite (op : JobOp) (r : JobRecord) :
    (applyOp op r).status = some (opTarget op).value := by
  cases op <;> rfl

/-! ## Claim C2 — executor idempotence under redelivery -/

/-- C2, counterexample. The claim says the second invocation of
analyze_video for a job already past PENDING fails its dispatch-start
transition with InvalidTransitionError and performs no side effects. On the
code this is false: with completedRec the job is past PENDING, yet the
second invocation's dispatch-start write succeeds (status becomes
"processing"), and a full second invocation mutates the record. -/
theorem C2_second_invocation_counterexample :
    (update_job_status .processing completedRec).status = some "processing" ∧
    analyze_video (.apiError "upstream boom" "OPENROUTER_API_ERROR") completedRec
      ≠ completedRec := by
  refine ⟨by decide, by decide⟩

/-- C2, amended. analyze_video has no idempotence guard: its behaviour is
entirely independent of the record's current status (there is no check and
no InvalidTransitionError anywhere), so a redelivered invocation repeats
the PROCESSING write — which always succeeds — and reprocesses the job,
overwriting the record. -/
theorem C2_executor_ignores_status (o : AnalysisOutcome) (r : JobRecord)
    (s : Option String) :
    analyze_video o { r with status := s } = analyze_video o r ∧
    (update_job_status .processing r).status = some JobStatus.processing.value := by
  refine ⟨?_, rfl⟩
  cases o <;> rfl

/-! ## Claim C7 — exactly one of result/error, only in the matching state -/

/-- C7, counterexample. The claim says exactly one of result/error is
populated and only in the corresponding terminal state. On the code this is
false: redeliveredRec is reachable (submit, then a failed invocation, then
a redelivered successful invocation), yet it holds both a result and an
error, with status COMPLETED — _store_result never clears the error field
and _store_error never clears the result field. -/
theorem C7_both_fields_counterexample :
    Reachable redeliveredRec ∧
    redeliveredRec.result.isSome = true ∧
    redeliveredRec.error.isSome = true ∧
    redeliveredRec.status = some "completed" := by
  refine ⟨?_, by decide, by decide, by decide⟩
  exact .step _ (.step _ (.submitted _))

/-- C7, amended. Only the forward implications hold on the code: a
reachable record with status COMPLETED has a result, a record with status
FAILED has an error, and no reachable record ever has status CANCELLED
(nothing in the code writes that value — cancellation deletes the record
instead); but the converse directions fail, since neither store operation
clears the other field, so after redelivery both may be populated at once. -/
theorem C7_one_directional_invariant (r : JobRecord) (h : Reachable r) :
    (r.status = some JobStatus.completed.value → r.result.isSome = true) ∧
    (r.status = some JobStatus.failed.value → r.error.isSome = true) ∧
    r.status ≠ some JobStatus.cancelled.value := by
  induction h with
  | submitted c =>
    dsimp [submitRecord, JobStatus.value]
    refine ⟨?_, ?_, ?_⟩ <;> decide
  | step o hr ih =>
    cases o <;>
      dsimp [analyze_video, store_result, store_error, update_job_status,
             JobStatus.value] <;>
      refine ⟨?_, ?_, ?_⟩ <;>
      first
        | exact fun hx => rfl
        | exact fun hx => absurd hx (by decide)

/-- C7 witness: the amended invariant applied to the concrete reachable
record redeliveredRec. -/
theorem C7_one_directional_invariant_witness :
    (redeliveredRec.status = some JobStatus.completed.value →
      redeliveredRec.result.isSome = true) ∧
    (redeliveredRec.status = some JobStatus.failed.value →
      redeliveredRec.error.isSome = true) ∧
    redeliveredRec.status ≠ some JobStatus.cancelled.value :=
  C7_one_directional_invariant redeliveredRec
    (.step _ (.step _ (.submitted _)))

/-! ## Claim C8 — cancellation of a terminal job -/

/-- C8, counterexample. The claim says cancelling a job whose record is
terminal fails with InvalidTransitionError and leaves the record
unmodified. On the code this is false: cancel_analysis on the COMPLETED
record succeeds (HTTP 204, no error of any kind) and deletes the record. -/
theorem C8_cancel_terminal_counterexample :
    isTerminal completedRec = true ∧
    (cancel_analysis (some completedRec)).httpStatus = 204 ∧
    (cancel_analysis (some completedRec)).store ≠ some completedRec := by
  refine ⟨by decide, rfl, by decide⟩

/-- C8, amended. Cancellation never fails and is not guarded by the
record's state: cancel_analysis unconditionally revokes the Celery task,
deletes the Redis record — terminal or not — and returns HTTP 204; there is
no InvalidTransitionError in the code, and a terminal record is destroyed
rather than preserved. -/
theorem C8_cancel_unconditional_delete (s : Option JobRecord) :
    (cancel_analysis s).httpStatus = 204 ∧
    (cancel_analysis s).store = none ∧
    (cancel_analysis s).revoked = true := by
  exact ⟨rfl, rfl, rfl⟩

/-! ## Claim C9 — facade status vocabulary -/

/-- C9, counterexample. The claim says every status value the facade
returns is one of the literal values PENDING, PROCESSING, COMPLETED,
FAILED, CANCELLED, character for character. On the code this is false: for
a stored pending job the facade returns the lowercase literal "pending",
which differs from "PENDING". -/
theorem C9_lowercase_counterexample :
    facadeStatusString (some "pending") = some "pending" ∧
    ("pending" : String) ≠ "PENDING" := by
  refine ⟨rfl, by decide⟩

/-- C9, amended. Every status value the facade returns is one of the five
lowercase literals "pending", "processing", "completed", "failed",
"cancelled" — the JobStatus enum values of the source, which are the §3
names in lowercase rather than character-for-character uppercase. -/
theorem C9_status_vocabulary (stored : Option String) (s : String)
    (h : facadeStatusString stored = some s) :
    s = "pending" ∨ s = "processing" ∨ s = "completed" ∨ s = "failed" ∨
    s = "cancelled" := by
  unfold facadeStatusString at h
  cases hof : JobStatus.ofValue (stored.getD JobStatus.pending.value) with
  | none => rw [hof] at h; exact absurd h (by simp)
  | some st =>
    rw [hof] at h
    cases st <;> simp [JobStatus.value] at h <;> simp [h]

/-- C9 witness: the amended vocabulary theorem applied to a stored
completed job. -/
theorem C9_status_vocabulary_witness :
    ("completed" : String) = "pending" ∨ ("completed" : String) = "processing" ∨
    ("completed" : String) = "completed" ∨ ("completed" : String) = "failed" ∨
    ("completed" : String) = "cancelled" :=
  C9_status_vocabulary (some "completed") "completed" rfl

/-! ## Claim C10 — extract_metadata is total, defaulting on failure -/

/-- C10, confirmed. extract_metadata is a total function of the HEAD
outcome (its whole body sits in one try/except Exception whose handler
returns the defaults, so no error propagates), and on every failing outcome
— unreachable URL, HTTP error status, malformed content-length header — it
returns the default metadata dictionary with duration_seconds 0,
resolution "unknown", fps 0, codec "unknown", frame_count 0,
file_size_mb 0 and content_type empty; metadata-extraction failure alone
therefore never fails a job. -/
theorem C10_extract_metadata_defaults (h : HeadOutcome)
    (hf : headFailed h = true) :
    extract_metadata h =
      { duration_seconds := 0, resolution := "unknown", fps := 0,
        codec := "unknown", frame_count := 0, file_size_mb := 0,
        content_type := "" } := by
  cases h with
  | netError => rfl
  | response code contentLength contentType =>
    simp only [headFailed] at hf
    simp only [extract_metadata]
    by_cases h4 : 400 ≤ code
    · simp [h4, defaultMetadata]
    · rw [if_neg h4]
      cases contentLength with
      | none => exfalso; simp [h4] at hf
      | some s =>
        have hn : s.toNat? = none := by
          rcases ht : s.toNat? with _ | n
          · rfl
          · simp [h4, ht] at hf
        simp [hn, defaultMetadata]

/-- C10 witness: the defaulting theorem applied to the network-error
outcome. -/
theorem C10_extract_metadata_defaults_witness :
    headFailed .netError = true ∧
    extract_metadata .netError =
      { duration_seconds := 0, resolution := "unknown", fps := 0,
        codec := "unknown", frame_count := 0, file_size_mb := 0,
        content_type := "" } :=
  ⟨rfl, C10_extract_metadata_defaults .netError rfl⟩

/-! ## Claim C3 — OPEN breaker rejects without invoking the operation -/

/-- C3, counterexample. The claim says a call rejected while OPEN fails
with an error carrying the remaining cooldown. On the code this is false:
openedBreaker recorded its last failure at time 0 with recovery_timeout 60,
so at time 30 the remaining cooldown — by the code's own
get_state computation — is 30 seconds, yet the raised CircuitBreakerError
message carries the full configured recovery_timeout, 60. -/
theorem C3_cooldown_payload_counterexample :
    openedBreaker.state = .opened ∧
    openedBreaker.last_failure_time = some 0 ∧
    (execute openedBreaker 30 .success).result = .rejected (.circuitOpen 60) ∧
    (execute openedBreaker 30 .success).invoked = false ∧
    time_until_retry openedBreaker 30 = 30 ∧
    (60 : Nat) ≠ 30 := by
  refine ⟨by decide, by decide, by decide, by decide, by decide, by decide⟩

/-- C3, amended. After failure_threshold consecutive qualifying failures
the breaker is OPEN, and every execute call made before recovery_timeout
seconds have elapsed since last_failure_time is rejected with a
CircuitBreakerError — one carrying the full configured recovery_timeout,
not the remaining cooldown — while the protected operation is never invoked
and the breaker state is unchanged. -/
theorem C3_open_window_rejects (cb0 : CircuitBreaker) (times : List Nat)
    (now t : Nat) (o : CallOutcome)
    (hst : cb0.state = .closed) (hc : cb0.failure_count = 0)
    (hlen : times.length = cb0.failure_threshold)
    (hpos : cb0.failure_threshold ≠ 0)
    (hlf : (runFailures cb0 times).last_failure_time = some t)
    (hwin : now < t + (runFailures cb0 times).recovery_timeout) :
    (runFailures cb0 times).state = .opened ∧
    execute (runFailures cb0 times) now o =
      { breaker := runFailures cb0 times,
        result := .rejected (.circuitOpen (runFailures cb0 times).recovery_timeout),
        invoked := false, successesRecorded := 0, failuresRecorded := 0 } := by
  have hop := runFailures_opens times cb0 hst (by omega) (by omega)
  exact ⟨hop.1, execute_open_window _ now t o hop.1 hlf hwin⟩

/-- C3 witness: the amended rejection theorem applied to the concrete
breaker opened by five failures at time 0, probed at time 30. -/
theorem C3_open_window_rejects_witness :
    (runFailures (CircuitBreaker.mk0 5 60 1) [0, 0, 0, 0, 0]).state
      = CircuitState.opened ∧
    execute (runFailures (CircuitBreaker.mk0 5 60 1) [0, 0, 0, 0, 0]) 30 .success =
      { breaker := runFailures (CircuitBreaker.mk0 5 60 1) [0, 0, 0, 0, 0],
        result := .rejected (.circuitOpen
          (runFailures (CircuitBreaker.mk0 5 60 1) [0, 0, 0, 0, 0]).recovery_timeout),
        invoked := false, successesRecorded := 0, failuresRecorded := 0 } :=
  C3_open_window_rejects (CircuitBreaker.mk0 5 60 1) [0, 0, 0, 0, 0] 30 0 .success
    rfl rfl rfl (by decide) (by decide) (by decide)

/-! ## Claim C4 — lazy recovery through HALF_OPEN -/

/-- C4, confirmed. Once recovery_timeout seconds have elapsed since
last_failure_time, the next execute call on an OPEN breaker lazily
transitions it to HALF_OPEN and is admitted (when half_open_max_calls is
positive, as in the default configuration); if the admitted probe succeeds
the breaker becomes CLOSED with failure_count reset to 0, and if it fails
with a qualifying failure the breaker returns to OPEN. -/
theorem C4_lazy_recovery (cb : CircuitBreaker) (now t : Nat)
    (hst : cb.state = .opened) (hlf : cb.last_failure_time = some t)
    (helapsed : t + cb.recovery_timeout ≤ now)
    (hmax : 0 < cb.half_open_max_calls) :
    admission cb now = ({ cb with state := .half_open, half_open_calls := 1 }, none) ∧
    (execute cb now .success).breaker.state = .closed ∧
    (execute cb now .success).breaker.failure_count = 0 ∧
    (execute cb now .success).invoked = true ∧
    (execute cb now (.failure true)).breaker.state = .opened ∧
    (execute cb now (.failure true)).invoked = true := by
  have hreset : should_attempt_reset cb now = true := by
    simp only [should_attempt_reset, hst, hlf, decide_eq_true_eq]
    omega
  have hno : ¬ cb.half_open_max_calls ≤ 0 := by omega
  have hadm : admission cb now =
      ({ cb with state := .half_open, half_open_calls := 1 }, none) := by
    simp [admission, hreset, hno]
  refine ⟨hadm, ?_, ?_, ?_, ?_, ?_⟩ <;>
    simp [execute, hadm, on_success, on_failure]

/-- C4 witness: the recovery theorem applied to the concrete opened breaker
probed at time 60, exactly when the 60-second recovery window expires. -/
theorem C4_lazy_recovery_witness :
    admission openedBreaker 60 =
      ({ openedBreaker with state := .half_open, half_open_calls := 1 }, none) ∧
    (execute openedBreaker 60 .success).breaker.state = .closed ∧
    (execute openedBreaker 60 .success).breaker.failure_count = 0 ∧
    (execute openedBreaker 60 .success).invoked = true ∧
    (execute openedBreaker 60 (.failure true)).breaker.state = .opened ∧
    (execute openedBreaker 60 (.failure true)).invoked = true :=
  C4_lazy_recovery openedBreaker 60 0 (by decide) (by decide) (by decide) (by decide)

/-! ## Claim C5 — one breaker-level outcome per admitted call -/

/-- C5, confirmed. One breaker-admitted call that internally retries is
recorded as exactly one circuit-breaker outcome: when the retried
_make_request exhausts its attempts with the qualifying OpenRouterAPIError,
the breaker's failure_count grows by exactly 1 and _on_failure runs exactly
once (not once per attempt); and when _make_request succeeds — in
particular after failing twice and succeeding on the third attempt — the
caller receives the success and _on_success runs exactly once. -/
theorem C5_single_breaker_outcome (cb : CircuitBreaker) (now hdr : Nat)
    (events : List HttpEvent) (hclosed : cb.state = .closed) :
    (∀ n, make_request hdr MAX_ATTEMPTS events = (.error .openRouterAPIError, n) →
        ((client_analyze_video cb now hdr events).1.breaker.failure_count
            = cb.failure_count + 1 ∧
         (client_analyze_video cb now hdr events).1.failuresRecorded = 1)) ∧
    (∀ n, make_request hdr MAX_ATTEMPTS events = (.ok (), n) →
        ((client_analyze_video cb now hdr events).1.result = .returned ∧
         (client_analyze_video cb now hdr events).1.successesRecorded = 1 ∧
         (client_analyze_video cb now hdr events).1.failuresRecorded = 0)) := by
  constructor
  · intro n hmk
    have hpo : protectedOutcome hdr events = (.failure true, n) := by
      simp [protectedOutcome, hmk, qualifies]
    simp [client_analyze_video, hpo, execute_closed_failure cb now hclosed,
          on_failure_count]
  · intro n hmk
    have hpo : protectedOutcome hdr events = (.success, n) := by
      simp [protectedOutcome, hmk]
    simp [client_analyze_video, hpo, execute_closed_success cb now hclosed]

/-- C5 witness: the single-outcome theorem applied to a fresh breaker, once
with three failing attempts (retries exhausted after 3 tries, failure_count
0 → 1) and once with two failures followed by a success on the third
attempt. -/
theorem C5_single_breaker_outcome_witness :
    ((client_analyze_video (CircuitBreaker.mk0 5 60 1) 0 60
        [.response 500, .response 500, .response 500]).1.breaker.failure_count
          = (CircuitBreaker.mk0 5 60 1).failure_count + 1 ∧
      (client_analyze_video (CircuitBreaker.mk0 5 60 1) 0 60
        [.response 500, .response 500, .response 500]).1.failuresRecorded = 1) ∧
    ((client_analyze_video (CircuitBreaker.mk0 5 60 1) 0 60
        [.response 500, .response 500, .response 200]).1.result = .returned ∧
      (client_analyze_video (CircuitBreaker.mk0 5 60 1) 0 60
        [.response 500, .response 500, .response 200]).1.successesRecorded = 1 ∧
      (client_analyze_video (CircuitBreaker.mk0 5 60 1) 0 60
        [.response 500, .response 500, .response 200]).1.failuresRecorded = 0) :=
  ⟨(C5_single_breaker_outcome (CircuitBreaker.mk0 5 60 1) 0 60
      [.response 500, .response 500, .response 500] rfl).1 3 rfl,
   (C5_single_breaker_outcome (CircuitBreaker.mk0 5 60 1) 0 60
      [.response 500, .response 500, .response 200] rfl).2 3 rfl⟩

/-! ## Claim C6 — timeouts are retryable (code bug) -/

/-- C6, code evaluated at the failing input. The claim (and the retry
decorator's own retry_if_exception_type list, which names
httpx.TimeoutException as retryable) says a hard-timeout failure is retried
up to 3 attempts. The code contradicts this: the body of _make_request
catches httpx.TimeoutException and re-raises it as ProcessingTimeoutError
before tenacity can see it, ProcessingTimeoutError matches neither entry of
the retry predicate, and so a call whose first attempt times out fails
immediately after exactly one attempt even though the next attempts would
have succeeded. -/
theorem C6_timeout_not_retried :
    attemptOnce 60 .timeout = .error .processingTimeoutError ∧
    isRetryable .processingTimeoutError = false ∧
    make_request 60 MAX_ATTEMPTS [.timeout, .response 200, .response 200]
      = (.error .processingTimeoutError, 1) := by
  refine ⟨rfl, rfl, rfl⟩

end VideoToText
